import Mathlib

set_option autoImplicit false

/-!
Verification of the duplex bridge core of the ton-connect bridge-sdk:
a shallow embedding of the abort-signal composition, the deferred-with-timeout
helper, the retry engine, the single-slot resource cell, the gateway's HTTP
request building, and the provider's incoming-message handler and derived
connection-state queries, together with theorems about their behaviour.
-/

namespace BridgeSdk

/-! ## Abort signals and the deferred-with-timeout helper

Embeds src/src/utils/any-signal.ts and src/src/utils/timeout.ts.
An abort signal is observed at one instant; `true` means it has fired. -/

/-- An abort signal observed at one instant: `true` means the signal has fired. -/
abbrev SignalState := Bool

/-- Embeds `AbortSignalany` from src/src/utils/any-signal.ts: the composed
controller is aborted exactly when some signal of the list is aborted
(union-of-abort semantics, via the initial `signal.aborted` check or the
`abort` event listeners). -/
def AbortSignalany (iterable : List SignalState) : SignalState :=
  iterable.any id

/-- Embeds `anySignal` from src/src/utils/any-signal.ts: drops the signals that
are null or undefined and composes the remaining ones with `AbortSignalany`. -/
def anySignal (signals : List (Option SignalState)) : SignalState :=
  AbortSignalany (signals.filterMap id)

/-- The runtime shape of the options object that `timeout` in
src/src/utils/timeout.ts passes to the action.  A TS object is dynamic, so the
record carries every key the code could set; a key the code does not set is
`none`.  The declared type `DeferOptions` of src/src/utils/timeout.ts only
declares the keys `timeout` and `signal`. -/
structure DeferOptionsObj where
  timeout : Option Nat
  signal : Option SignalState
  abort : Option SignalState
deriving DecidableEq, Repr

/-- Embeds `timeout` from src/src/utils/timeout.ts (lines 39-52) up to the
invocation of the action.  `tmo` is the `timeout` option, `callerSignal` the
caller's signal (or `none` when absent) and `timerFired` tells whether the
`AbortSignal.timeout(timeout)` timer has fired at the observation instant
(the timer signal exists exactly when `timeout` is not undefined).  Line 51
builds the object passed to the action: the key `timeout` is copied, the
composed signal is stored under the key `abort`, and no key named `signal`
is ever set. -/
def timeoutDeferOptions (tmo : Option Nat) (callerSignal : Option SignalState)
    (timerFired : Bool) : DeferOptionsObj :=
  let timeoutSignal : Option SignalState :=
    match tmo with
    | some _ => some timerFired
    | none => none
  { timeout := tmo
    signal := none
    abort := some (anySignal [callerSignal, timeoutSignal]) }

/-- Embeds the read in `createEventSource` (src/src/bridge-gateway.ts line
523): `const { signal } = deferOptions` — the factory observes the options
object only through its `signal` key. -/
def createEventSourceObservedSignal (o : DeferOptionsObj) : Option SignalState :=
  o.signal

/-! ## Retry engine

The snapshot's src/src/utils/call-for-success.ts predates the `maxDelayMs`
ceiling: its `RetryOptions` has only `attempts`, `delayMs` and `exponential`,
while the canonical provider (src/unnamed/part_010) passes `maxDelayMs` to
`callForSuccess`.  The delay-update rule is therefore modelled from the spec;
the loop shape follows src/src/utils/call-for-success.ts lines 50-76. -/

/-- Modelled from the spec: the delay update after a failed attempt of the
canonical `callForSuccess` (the version implementing `maxDelayMs` is missing
from the snapshot; src/src/utils/call-for-success.ts lines 66-71 implement the
uncapped doubling).  Per the spec, if `exponential`, the delay doubles after
each failure, capped at `maxDelayMs`; `maxDelayMs` is unbounded unless
provided. -/
def nextRetryDelay (exponential : Bool) (maxDelayMs : Option Nat) (d : Nat) : Nat :=
  if exponential then
    match maxDelayMs with
    | some m => min (2 * d) m
    | none => 2 * d
  else d

/-- The retry loop of `callForSuccess` (src/src/utils/call-for-success.ts lines
50-76, with the spec-modelled `maxDelayMs` cap): `fn i` is the outcome of
attempt `i`, `remaining` the number of attempts still allowed, `d` the current
delay.  Between failed attempts it sleeps `d` and then updates the delay.
Returns the final outcome and the list of sleeps performed, in order. -/
def callForSuccessLoop {α : Type} (fn : Nat → Option α) (exponential : Bool)
    (maxDelayMs : Option Nat) : Nat → Nat → Nat → Option α × List Nat
  | _, 0, _ => (none, [])
  | i, r + 1, d =>
    match fn i with
    | some v => (some v, [])
    | none =>
      match r with
      | 0 => (none, [])
      | r' + 1 =>
        let rest := callForSuccessLoop fn exponential maxDelayMs (i + 1) (r' + 1)
          (nextRetryDelay exponential maxDelayMs d)
        (rest.1, d :: rest.2)

/-- Embeds `callForSuccess`: run `fn` up to `attempts` times starting from
attempt index `0` with initial delay `delayMs`. -/
def callForSuccess {α : Type} (fn : Nat → Option α) (attempts delayMs : Nat)
    (exponential : Bool) (maxDelayMs : Option Nat) : Option α × List Nat :=
  callForSuccessLoop fn exponential maxDelayMs 0 attempts delayMs

/-- `defaultRetryDelayMs` of the canonical BridgeProvider
(src/unnamed/part_010 line 601). -/
def defaultRetryDelayMs : Nat := 1000

/-- `defaultMaxExponentialDelayMS` of the canonical BridgeProvider
(src/unnamed/part_010 line 602). -/
def defaultMaxExponentialDelayMS : Nat := 7000

/-! ## Single-slot resource cell

Embeds `createResource` from src/unnamed/part_006.  The JS runtime is
cooperatively single-threaded: the code between two `await`s runs atomically.
A create call has two such blocks — the synchronous prefix (abort the previous
controller, install a fresh one, start the factory, publish `currentPromise`)
and the continuation after the factory resolves (the supersession guard).
`dispose` runs one atomic block over the fields it clears.  Resources and
promise tokens are drawn from `Nat`; the factory of the gateway creates a
fresh `EventSource` on every call, so a resolving factory always returns an
instance never seen before.

Aborting the previous controller (line 53 of part_006) closes every event
source created under it: `createEventSource` registers
`config.signal.addEventListener(abort, eventSource.close)`, and the dispose
function is exactly `resource.close()`.  The model therefore marks all
previously produced instances as disposed when a new create begins. -/

/-- Outcome of one create call once its factory has resolved. -/
inductive CreateOutcome where
  /-- The instance became `currentResource` and the call returned it. -/
  | installed (r : Nat)
  /-- Another creation superseded the call: the instance was passed to the
  dispose function and the call failed with the dedicated
  "Resource creation was aborted by a new resource creation" error. -/
  | abortedByNew (r : Nat)
deriving DecidableEq, Repr

/-- State of the resource cell plus the bookkeeping needed to speak about
liveness: `produced` lists the instances returned by resolved factories,
`disposedL` the instances that have been closed (via the dispose function or
the abort-signal listener), `pending` the promise tokens whose factory has not
resolved yet, `usedTokens` every token ever issued. -/
structure CellState where
  currentResource : Option Nat
  currentPromise : Option Nat
  pending : List Nat
  usedTokens : List Nat
  produced : List Nat
  disposedL : List Nat
deriving DecidableEq, Repr

/-- The cell before any call. -/
def initCell : CellState :=
  { currentResource := none, currentPromise := none, pending := []
    usedTokens := [], produced := [], disposedL := [] }

/-- An atomic block of the cell's code, in the interleaving semantics above. -/
inductive CellStep where
  /-- Synchronous prefix of `create` (part_006 lines 50-63) with a fresh
  promise token `t`. -/
  | createStart (t : Nat)
  /-- The factory of call `t` resolves with the fresh instance `r`; the
  continuation after `await promise` runs (part_006 lines 64-72). -/
  | factoryResolve (t : Nat) (r : Nat)
  /-- `dispose` (part_006 lines 81-102). -/
  | dispose
deriving DecidableEq, Repr

/-- Embeds `dispose` (part_006 lines 81-102): clear both slots and close the
held resource.  The pending promise's eventual result is closed when it
resolves (the supersession guard of its create call fires, and the abort
signal has closed the event source); disposal errors are swallowed. -/
def cellDispose (s : CellState) : CellState :=
  { s with
    currentResource := none
    currentPromise := none
    disposedL :=
      match s.currentResource with
      | some r => r :: s.disposedL
      | none => s.disposedL }

/-- The instances of `s` that have been produced and not closed. -/
def liveInstances (s : CellState) : List Nat :=
  s.produced.filter (fun r => decide (r ∉ s.disposedL))

/-- One atomic block of the cell.  `none` means the block's preconditions
(fresh token, fresh instance, token actually pending) do not hold; otherwise
the next state and, for a resolving create, the call's outcome. -/
def cellStep (s : CellState) : CellStep → Option (CellState × Option CreateOutcome)
  | .createStart t =>
    if t ∈ s.usedTokens then none
    else
      some ({ s with
        currentPromise := some t
        pending := t :: s.pending
        usedTokens := t :: s.usedTokens
        disposedL := liveInstances s ++ s.disposedL }, none)
  | .factoryResolve t r =>
    if t ∈ s.pending ∧ r ∉ s.produced ∧ r ∉ s.disposedL then
      let s' := { s with pending := s.pending.erase t, produced := r :: s.produced }
      if s.currentPromise ≠ some t ∧ some r ≠ s.currentResource then
        some ({ s' with disposedL := r :: s'.disposedL }, some (.abortedByNew r))
      else
        some ({ s' with currentResource := some r }, some (.installed r))
    else none
  | .dispose => some (cellDispose s, none)

/-- Run a sequence of atomic blocks from a given state. -/
def runCell : CellState → List CellStep → Option CellState
  | s, [] => some s
  | s, st :: rest =>
    match cellStep s st with
    | none => none
    | some (s', _) => runCell s' rest

/-- The cell invariant: produced instances and pending tokens are pairwise
distinct, pending tokens were issued, every live instance is the held one,
the held instance is a produced one, and while some instance is live the
published promise token is no longer pending (its create call has already
completed). -/
def CellInv (s : CellState) : Prop :=
  s.produced.Nodup
    ∧ s.pending.Nodup
    ∧ (∀ t ∈ s.pending, t ∈ s.usedTokens)
    ∧ (∀ r ∈ s.produced, r ∉ s.disposedL → s.currentResource = some r)
    ∧ (∀ r, s.currentResource = some r → r ∈ s.produced)
    ∧ ((∃ r ∈ s.produced, r ∉ s.disposedL) → ∀ t ∈ s.pending, s.currentPromise ≠ some t)

/-! ## Gateway HTTP requests

Embeds the static `BridgeGateway.sendRequest` (src/src/bridge-gateway.ts lines
377-406) and its response check, and — modelled from the spec — the verify
request, whose implementation is absent from the snapshot. -/

/-- Modelled from the spec: `addPathToUrl` (src/src/utils/url.ts is not in the
snapshot; the spec describes it as "URL path join"): append the path segment
to the bridge base URL. -/
def addPathToUrl (url path : String) : String :=
  url ++ "/" ++ path

/-- The character table of standard base64 (`Base64.encode` of
tonconnect/protocol encodes the message bytes with standard base64). -/
def base64Char (n : Nat) : Char :=
  if n < 26 then Char.ofNat (65 + n)
  else if n < 52 then Char.ofNat (97 + (n - 26))
  else if n < 62 then Char.ofNat (48 + (n - 52))
  else if n = 62 then '+' else '/'

/-- Standard base64 of a byte list (each byte `< 256`), with padding. -/
def base64Encode : List Nat → String
  | [] => ""
  | [b1] =>
    String.mk [base64Char (b1 / 4), base64Char (b1 % 4 * 16), '=', '=']
  | [b1, b2] =>
    String.mk [base64Char (b1 / 4), base64Char (b1 % 4 * 16 + b2 / 16),
      base64Char (b2 % 16 * 4), '=']
  | b1 :: b2 :: b3 :: rest =>
    String.mk [base64Char (b1 / 4), base64Char (b1 % 4 * 16 + b2 / 16),
      base64Char (b2 % 16 * 4 + b3 / 64), base64Char (b3 % 64)]
      ++ base64Encode rest

/-- The options record of `sendRequest`.  `topic` ranges over the RpcMethod
strings; `traceId` over arbitrary strings. -/
structure SendOptions where
  topic : Option String
  ttl : Option Nat
  traceId : Option String
deriving DecidableEq, Repr

/-- `defaultTtl` of BridgeGateway (src/src/bridge-gateway.ts line 309). -/
def defaultTtl : Nat := 300

/-- A POST request as `sendRequest` issues it: target URL, query parameters in
append order, raw string body. -/
structure HttpPost where
  url : String
  query : List (String × String)
  body : String
deriving DecidableEq, Repr

/-- JS truthiness of an optional string: `undefined` and the empty string are
falsy.  `sendRequest` guards `topic` and `trace_id` with
`if (options?.topic)` / `if (options?.traceId)`. -/
def truthyString : Option String → Option String
  | some s => if s = "" then none else some s
  | none => none

/-- Embeds the request building of the static `BridgeGateway.sendRequest`
(src/src/bridge-gateway.ts lines 377-399): URL `join(bridgeUrl, "message")`,
query `client_id`, `to`, `ttl` (defaulted with `??` to 300), then `topic` and
`trace_id` when truthy; body is the base64 of the message bytes. -/
def sendRequest (bridgeUrl : String) (message : List Nat)
    (fromId receiver : String) (options : Option SendOptions) : HttpPost :=
  let o := options.getD { topic := none, ttl := none, traceId := none }
  { url := addPathToUrl bridgeUrl "message"
    query :=
      [("client_id", fromId), ("to", receiver),
        ("ttl", toString (o.ttl.getD defaultTtl))]
      ++ (match truthyString o.topic with
          | some tp => [("topic", tp)]
          | none => [])
      ++ (match truthyString o.traceId with
          | some tr => [("trace_id", tr)]
          | none => [])
    body := base64Encode message }

/-- Embeds the response handling of `sendRequest`/`post`
(src/src/bridge-gateway.ts lines 401-405 and 435-447): `response.ok` is
status 200-299; a non-ok response raises the bridge error. -/
def sendRequestOutcome (status : Nat) : Except String Unit :=
  if 200 ≤ status ∧ status ≤ 299 then Except.ok ()
  else Except.error "Bridge send failed"

/-- One `sendRequest` call: the list of POSTs issued on the network and the
call's outcome for a response with the given status. -/
def sendRequestRun (bridgeUrl : String) (message : List Nat)
    (fromId receiver : String) (options : Option SendOptions) (status : Nat) :
    List HttpPost × Except String Unit :=
  ([sendRequest bridgeUrl message fromId receiver options],
    sendRequestOutcome status)

/-- The verify parameters, per the `BridgeVerifyParams` export of
src/src/index.ts and the spec: a client id, a URL and a verify type. -/
structure BridgeVerifyParams where
  client_id : String
  url : String
  type : String
deriving DecidableEq, Repr

/-- A POST with a JSON object body, given as its key/value fields. -/
structure JsonPost where
  url : String
  headers : List (String × String)
  bodyFields : List (String × String)
deriving DecidableEq, Repr

/-- Modelled from the spec: `BridgeGateway.verifyRequest` is absent from the
snapshot (src/src/index.ts still exports `BridgeVerifyType` and
`BridgeVerifyParams`, but src/src/bridge-gateway.ts has no verify member).
Per the spec, verify issues one HTTP POST to `join(bridgeUrl, "verify")`
whose JSON body is the object with fields client_id, url and type, sent with
Content-Type application/json. -/
def verifyRequest (bridgeUrl : String) (params : BridgeVerifyParams) : JsonPost :=
  { url := addPathToUrl bridgeUrl "verify"
    headers := [("Content-Type", "application/json")]
    bodyFields :=
      [("client_id", params.client_id), ("url", params.url),
        ("type", params.type)] }

/-- Modelled from the spec: decode the JSON response body of verify — the
value of its `status` field. -/
def verifyDecodeResponse (responseFields : List (String × String)) : Option String :=
  (responseFields.find? (fun p => p.1 == "status")).map (fun p => p.2)

/-- One verify call: the list of POSTs issued and the decoded result for the
given JSON response fields. -/
def verifyRun (bridgeUrl : String) (params : BridgeVerifyParams)
    (responseFields : List (String × String)) : List JsonPost × Option String :=
  ([verifyRequest bridgeUrl params], verifyDecodeResponse responseFields)

/-! ## Provider: clients, incoming-message handler, derived state

Embeds the canonical BridgeProvider of src/unnamed/part_010: the client list,
`getCryptoSession`, the incoming-message handler `gatewayListener`
(lines 912-948), `updateClients` (lines 765-776) with `equalsDistinct`
(src/unnamed/part_007), and the derived `isReady`/`isConnecting`/`isClosed`
queries (lines 642-652 and src/src/bridge-gateway.ts lines 331-344).

The external session-cryptography library is out of scope per the spec: a
session is represented by its `sessionId`, and JSON parsing, authenticated-box
decryption and the anonymous-box opening of `request_source` are supplied as
an environment of partial functions (`none` models a thrown exception). -/

/-- A session of the external crypto library, by its hex public key. -/
structure SessionCrypto where
  sessionId : String
deriving DecidableEq, Repr

/-- A client connection: this peer's session paired with the remote peer's
hex public key (src/models/client-connection.ts of the canonical snapshot). -/
structure ClientConnection where
  session : SessionCrypto
  clientId : String
deriving DecidableEq, Repr

/-- The parsed shape of a non-heartbeat frame body
(`BridgeIncomingMessage` with the canonical `trace_id`, `request_source`,
`connect_source` extensions).  `fromId` embeds the wire field `from`. -/
structure BridgeIncomingMessage where
  fromId : String
  message : String
  trace_id : Option String
  request_source : Option String
  connect_source : Option String
deriving DecidableEq, Repr

/-- The decoded `request_source` after the snake0case to camelCase mapping. -/
structure BridgeRequestSource where
  origin : String
  ip : String
  time : String
  userAgent : String
deriving DecidableEq, Repr

/-- An SSE message event: raw frame data and the relay-assigned event id. -/
structure MessageEventStr where
  data : String
  lastEventId : String
deriving DecidableEq, Repr

/-- The provider state touched by the incoming-message handler. -/
structure ProviderState where
  clients : List ClientConnection
  lastEventId : Option String
  lastHeartbeatAt : Nat
deriving DecidableEq, Repr

/-- The event object passed to the user listener (part_010 lines 940-947). -/
structure DeliveredEvent (α : Type) where
  lastEventId : String
  traceId : Option String
  payload : α
  fromId : String
  requestSource : Option BridgeRequestSource
  connectSource : Option String
deriving DecidableEq, Repr

/-- What one invocation of the handler did, besides updating the state:
which callbacks ran and whether an exception escaped. -/
inductive HandlerOutput (α : Type) where
  /-- Heartbeat frame: returned after stamping `lastHeartbeatAt`. -/
  | heartbeat
  /-- JSON parse of the frame body failed: the error listener was invoked
  once and the handler returned normally. -/
  | reportedParseError (msg : String)
  /-- An exception escaped the handler (unknown client, decryption failure,
  request-source opening failure). -/
  | thrown (msg : String)
  /-- The user listener was invoked once with the event. -/
  | delivered (ev : DeliveredEvent α)
deriving DecidableEq, Repr

/-- The external collaborators of the handler: JSON parsing of the frame body,
base64-decode plus authenticated-box decrypt plus JSON parse of the payload
(keyed by the session's id), and the anonymous-box opening of
`request_source`.  `none` models a thrown exception. -/
structure CryptoEnv (α : Type) where
  parseIncoming : String → Option BridgeIncomingMessage
  decryptMessage : String → String → Option α
  openRequestSource : String → String → Option BridgeRequestSource

/-- Embeds `getCryptoSession` (part_010 lines 877-883): find a client by its
`clientId`; `none` models the thrown "Client session does not exist" error. -/
def getCryptoSession (clients : List ClientConnection) (clientSessionId : String) :
    Option SessionCrypto :=
  (clients.find? (fun c => c.clientId == clientSessionId)).map (fun c => c.session)

/-- Embeds `loadMaybeSource` (part_010 lines 885-910): absent input yields
`undefined`; a failing anonymous-box open or JSON parse throws (`none`). -/
def loadMaybeSource {α : Type} (env : CryptoEnv α) (session : SessionCrypto) :
    Option String → Option (Option BridgeRequestSource)
  | none => some none
  | some rs => (env.openRequestSource session.sessionId rs).map some

/-- Embeds the incoming-message handler `gatewayListener`
(part_010 lines 912-948), faithfully to its control flow:

1. data equal to the literal "heartbeat": stamp `lastHeartbeatAt`, return;
2. JSON parse of the body — on failure report to the error listener, return;
3. `getCryptoSession` on the frame's from — a missing client throws;
4. decrypt and parse the payload — a failure throws;
5. open `request_source` if present — a failure throws;
6. only then assign `lastEventId` from the frame and invoke the listener. -/
def gatewayListener {α : Type} (env : CryptoEnv α) (now : Nat)
    (s : ProviderState) (e : MessageEventStr) : ProviderState × HandlerOutput α :=
  if e.data = "heartbeat" then
    ({ s with lastHeartbeatAt := now }, .heartbeat)
  else
    match env.parseIncoming e.data with
    | none => (s, .reportedParseError ("Failed to parse message: " ++ e.data))
    | some m =>
      match getCryptoSession s.clients m.fromId with
      | none => (s, .thrown "Client session does not exist")
      | some sessionCrypto =>
        match env.decryptMessage sessionCrypto.sessionId m.message with
        | none => (s, .thrown "decrypt or payload parse failed")
        | some request =>
          match loadMaybeSource env sessionCrypto m.request_source with
          | none => (s, .thrown "Decrypt error ")
          | some requestSource =>
            ({ s with lastEventId := some e.lastEventId },
              .delivered
                { lastEventId := e.lastEventId
                  traceId := m.trace_id
                  payload := request
                  fromId := m.fromId
                  requestSource := requestSource
                  connectSource := m.connect_source })

/-- How many times the handler invoked the user listener. -/
def listenerCalls {α : Type} : HandlerOutput α → Nat
  | .delivered _ => 1
  | _ => 0

/-- How many times the handler invoked the error listener. -/
def errorListenerCalls {α : Type} : HandlerOutput α → Nat
  | .reportedParseError _ => 1
  | _ => 0

/-- Whether an exception escaped the handler. -/
def handlerThrew {α : Type} : HandlerOutput α → Bool
  | .thrown _ => true
  | _ => false

/-- Whether the handler tore the SSE subscription down.  The handler's code
contains no call that closes the gateway or the event source, so no output
carries a teardown effect. -/
def tearsDownSubscription {α : Type} : HandlerOutput α → Bool :=
  fun _ => false

/-! ## Derived connection state -/

/-- The `readyState` of an EventSource. -/
inductive EventSourceReadyState where
  | CONNECTING
  | OPEN
  | CLOSED
deriving DecidableEq, Repr

/-- Embeds `BridgeGateway.isReady` (src/src/bridge-gateway.ts lines 331-334):
`eventSource?.readyState === EventSource.OPEN`, where the argument is the
resource cell's current event source (or `none`). -/
def gatewayIsReady (cur : Option EventSourceReadyState) : Bool :=
  cur == some .OPEN

/-- Embeds `BridgeGateway.isClosed` (lines 336-339):
`eventSource?.readyState !== EventSource.OPEN`. -/
def gatewayIsClosed (cur : Option EventSourceReadyState) : Bool :=
  !(cur == some .OPEN)

/-- Embeds `BridgeGateway.isConnecting` (lines 341-344):
`eventSource?.readyState === EventSource.CONNECTING`. -/
def gatewayIsConnecting (cur : Option EventSourceReadyState) : Bool :=
  cur == some .CONNECTING

/-- The provider's view of the gateway: `none` when `this.gateway` is null,
otherwise the gateway's current event source state. -/
abbrev GatewayView := Option (Option EventSourceReadyState)

/-- Embeds `BridgeProvider.isReady` (part_010 lines 642-644):
`this.gateway?.isReady || false`. -/
def providerIsReady (gw : GatewayView) : Bool :=
  match gw with
  | some cur => gatewayIsReady cur
  | none => false

/-- Embeds `BridgeProvider.isConnecting` (lines 646-648):
`this.gateway?.isConnecting ?? false`. -/
def providerIsConnecting (gw : GatewayView) : Bool :=
  match gw with
  | some cur => gatewayIsConnecting cur
  | none => false

/-- Embeds `BridgeProvider.isClosed` (lines 650-652):
`this.gateway?.isClosed ?? false`. -/
def providerIsClosed (gw : GatewayView) : Bool :=
  match gw with
  | some cur => gatewayIsClosed cur
  | none => false

/-! ## Distinct-set comparison and updateClients -/

/-- The iteration of `new Set(items)`: keep each element whose value has not
been seen yet; `seen` accumulates the kept values. -/
def jsSetListAux {α : Type} [DecidableEq α] (seen : List α) : List α → List α
  | [] => []
  | x :: xs =>
    if x ∈ seen then jsSetListAux seen xs
    else x :: jsSetListAux (x :: seen) xs

/-- Embeds the iteration order of `new Set(items)`: first occurrences, in
order. -/
def jsSetList {α : Type} [DecidableEq α] (l : List α) : List α :=
  jsSetListAux [] l

/-- Embeds `equalsDistinct` (src/unnamed/part_007 lines 5-14): compare the
sizes of the two sets, then check that every element of the first set is in
the second. -/
def equalsDistinct {α : Type} [DecidableEq α] (itemsA itemsB : List α) : Bool :=
  let setA := jsSetList itemsA
  let setB := jsSetList itemsB
  if setA.length ≠ setB.length then false
  else setA.all (fun item => decide (item ∈ setB))

/-- Embeds `BridgeProvider.updateClients` (part_010 lines 765-776), projected
to the state it touches: compare the previous and new session-id lists with
`equalsDistinct`; when equal return without replacing the stored clients and
without reconnecting, otherwise store the new clients and call
`restoreConnection` (the second component records whether it was called). -/
def updateClients (current incoming : List ClientConnection) :
    List ClientConnection × Bool :=
  let previousIds := current.map (fun c => c.session.sessionId)
  let newIds := incoming.map (fun c => c.session.sessionId)
  if equalsDistinct previousIds newIds then (current, false)
  else (incoming, true)

/-! ## Concrete fixtures for evaluating the embedding -/

/-- An environment in which every external operation fails. -/
def emptyEnvNat : CryptoEnv Nat :=
  { parseIncoming := fun _ => none
    decryptMessage := fun _ _ => none
    openRequestSource := fun _ _ => none }

/-- A test frame body: sender "c1", ciphertext "CT", no extras. -/
def testIncoming : BridgeIncomingMessage :=
  { fromId := "c1", message := "CT", trace_id := none
    request_source := none, connect_source := none }

/-- A concrete environment: the frame body "GOOD" parses to `testIncoming`,
session "s1" decrypts its ciphertext to the payload `7`; everything else
fails. -/
def testEnv : CryptoEnv Nat :=
  { parseIncoming := fun s => if s = "GOOD" then some testIncoming else none
    decryptMessage := fun sid ct => if sid = "s1" ∧ ct = "CT" then some 7 else none
    openRequestSource := fun _ _ => none }

/-- A concrete provider state: one client pairing session "s1" with remote
peer "c1", stored last event id "5". -/
def testState : ProviderState :=
  { clients := [{ session := { sessionId := "s1" }, clientId := "c1" }]
    lastEventId := some "5", lastHeartbeatAt := 0 }

/-- The cell state after the run
`createStart 0; createStart 1; factoryResolve 1 10`: the second create won
and installed instance 10; the first create's factory is still pending. -/
def cellRaceState : CellState :=
  { currentResource := some 10, currentPromise := some 1, pending := [0]
    usedTokens := [1, 0], produced := [10], disposedL := [] }

/-- The state after the first create's late factory resolves with instance
20: the instance is disposed and the call fails. -/
def cellRaceState2 : CellState :=
  { currentResource := some 10, currentPromise := some 1, pending := []
    usedTokens := [1, 0], produced := [20, 10], disposedL := [20] }

/-- The event delivered for the frame body "GOOD" with event id "7" under
`testEnv` and `testState`. -/
def testDelivered : DeliveredEvent Nat :=
  { lastEventId := "7", traceId := none, payload := 7, fromId := "c1"
    requestSource := none, connectSource := none }

/-! # Theorems -/

/-- Cap propagation through one doubling step: clamping before a further
power-of-two multiplication agrees with clamping at the end. -/
theorem min_double_pow (d m j : Nat) :
    min (min (2 * d) m * 2 ^ j) m = min (2 * d * 2 ^ j) m := by
  rcases Nat.le_total (2 * d) m with h | h
  · rw [Nat.min_eq_left h]
  · rw [Nat.min_eq_right h]
    have h1 : m ≤ m * 2 ^ j :=
      Nat.le_mul_of_pos_right m (Nat.pos_pow_of_pos j (by norm_num))
    have h2 : m ≤ 2 * d * 2 ^ j :=
      le_trans h (Nat.le_mul_of_pos_right _ (Nat.pos_pow_of_pos j (by norm_num)))
    rw [Nat.min_eq_right h1, Nat.min_eq_right h2]

/-- In a run where every attempt fails, the sleeps of the exponential retry
loop with cap `m` are exactly `min (d * 2 ^ j) m` for `j = 0, 1, …`, provided
the initial delay does not exceed the cap. -/
theorem callForSuccessLoop_sleeps {α : Type} (m : Nat) :
    ∀ (r i d : Nat), d ≤ m →
      (callForSuccessLoop (fun _ => (none : Option α)) true (some m) i r d).2
        = (List.range (r - 1)).map (fun j => min (d * 2 ^ j) m) := by
  intro r
  induction r with
  | zero => intro i d _; simp [callForSuccessLoop]
  | succ k ih =>
    intro i d hd
    match k with
    | 0 => simp [callForSuccessLoop]
    | k' + 1 =>
      have tail := ih (i + 1) (nextRetryDelay true (some m) d) (by
        simp [nextRetryDelay])
      simp only [callForSuccessLoop, tail]
      have hr : (k' + 1 + 1) - 1 = (k' + 1 - 1) + 1 := by omega
      rw [hr, List.range_succ_eq_map, List.map_cons, List.map_map]
      refine List.cons_eq_cons.mpr ⟨?_, ?_⟩
      · simp [Nat.min_eq_left hd]
      · apply List.map_congr_left
        intro j _
        simp only [Function.comp, nextRetryDelay, if_true]
        rw [min_double_pow]
        congr 1
        rw [Nat.succ_eq_add_one, pow_succ]
        ring

/-- C1: the claim fails on the code.  `timeout` (src/src/utils/timeout.ts
line 51) stores the composed union-of-abort signal under the key `abort`,
never under `signal` (even though its own declared `DeferOptions` type only
has `timeout` and `signal`), so the factory in `createEventSource`, which
destructures `deferOptions.signal`, observes no signal at all.  At the
concrete input `timeout = 100` with an unaborted caller signal and the
deadline timer fired, the observed signal is absent while the composed signal
sits aborted under the unread key `abort`; the observed signal is absent for
every input. -/
theorem c1_timeout_passes_abort_not_signal :
    createEventSourceObservedSignal (timeoutDeferOptions (some 100) (some false) true) = none
      ∧ (timeoutDeferOptions (some 100) (some false) true).abort = some true
      ∧ ∀ (tmo : Option Nat) (cs : Option SignalState) (tf : Bool),
          createEventSourceObservedSignal (timeoutDeferOptions tmo cs tf) = none :=
  ⟨rfl, rfl, fun _ _ _ => rfl⟩

/-- C8 counterexample: in the Connecting substate (gateway non-null, SSE
handle CONNECTING) the claimed state-table row requires `isClosed = false`,
but the code computes `isClosed = true`, because the gateway's `isClosed` is
`readyState !== OPEN`. -/
theorem c8_counterexample_connecting_isClosed :
    providerIsReady (some (some .CONNECTING)) = false
      ∧ providerIsConnecting (some (some .CONNECTING)) = true
      ∧ providerIsClosed (some (some .CONNECTING)) = true := by
  decide

/-- C8 amended: in the Connecting substate, isReady is false, isConnecting is
true and isClosed is also true (not false).  For every reachable gateway view
the three derived queries reflect the SSE handle's observable state: ready
iff the gateway is present with an OPEN handle, connecting iff present with a
CONNECTING handle, closed iff present with a handle that is not OPEN
(including a not-yet-created one). -/
theorem c8_derived_state_queries (gw : GatewayView) :
    providerIsReady gw = decide (gw = some (some .OPEN))
      ∧ providerIsConnecting gw = decide (gw = some (some .CONNECTING))
      ∧ providerIsClosed gw = (gw.isSome && !providerIsReady gw) := by
  rcases gw with _ | (_ | st)
  · decide
  · decide
  · cases st <;> decide

/-- C7: a frame whose raw data is exactly the literal "heartbeat" stamps
`lastHeartbeatAt` with the current time and returns: the user listener is not
invoked for such a frame and `lastEventId` is not modified by it. -/
theorem c7_heartbeat_frame {α : Type} (env : CryptoEnv α) (now : Nat)
    (s : ProviderState) (e : MessageEventStr) (h : e.data = "heartbeat") :
    gatewayListener env now s e = ({ s with lastHeartbeatAt := now }, .heartbeat)
      ∧ listenerCalls (gatewayListener env now s e).2 = 0
      ∧ (gatewayListener env now s e).1.lastEventId = s.lastEventId := by
  simp [gatewayListener, h, listenerCalls]

/-- C7 witness: the heartbeat behaviour evaluated at a concrete frame. -/
theorem c7_heartbeat_frame_witness :
    ({ data := "heartbeat", lastEventId := "9" } : MessageEventStr).data = "heartbeat"
      ∧ (gatewayListener testEnv 42 testState { data := "heartbeat", lastEventId := "9" }
          = ({ testState with lastHeartbeatAt := 42 }, .heartbeat)
        ∧ listenerCalls (gatewayListener testEnv 42 testState { data := "heartbeat", lastEventId := "9" }).2 = 0
        ∧ (gatewayListener testEnv 42 testState { data := "heartbeat", lastEventId := "9" }).1.lastEventId
            = testState.lastEventId) :=
  ⟨rfl, c7_heartbeat_frame testEnv 42 testState { data := "heartbeat", lastEventId := "9" } rfl⟩

/-- C9: the gateway's verify operation issues one HTTP POST to
`join(bridgeUrl, "verify")` whose body is the JSON object with fields
client_id, url and type, sent with Content-Type application/json, and returns
the status value decoded from the JSON response body. -/
theorem c9_verify_request (bridgeUrl : String) (params : BridgeVerifyParams)
    (responseFields : List (String × String)) (st : String) :
    (verifyRun bridgeUrl params responseFields).1.length = 1
      ∧ (verifyRun bridgeUrl params responseFields).1
          = [{ url := addPathToUrl bridgeUrl "verify"
               headers := [("Content-Type", "application/json")]
               bodyFields := [("client_id", params.client_id), ("url", params.url),
                 ("type", params.type)] }]
      ∧ (verifyRun bridgeUrl params responseFields).2 = verifyDecodeResponse responseFields
      ∧ verifyDecodeResponse [("status", st)] = some st := by
  refine ⟨rfl, rfl, rfl, ?_⟩
  simp [verifyDecodeResponse]

/-- C5 counterexample: a traceId option that is given but empty.  The claim
requires the query to contain trace_id exactly when a traceId option is
given, but the code guards it with JS truthiness (`if (options?.traceId)`),
so the empty string is skipped: the query of this request carries no
trace_id parameter at all. -/
theorem c5_counterexample_empty_traceId :
    (sendRequest "https://bridge.example" [104, 105] "A" "B"
        (some { topic := none, ttl := none, traceId := some "" })).query
      = [("client_id", "A"), ("to", "B"), ("ttl", "300")] := by
  rfl

/-- C5 amended: `sendRequest` issues exactly one HTTP POST to
`join(bridgeUrl, "message")` whose query contains `client_id = from`,
`to = to`, and `ttl` equal to the given ttl or 300 when omitted; it contains
`topic` exactly when a truthy (non-empty) topic option is given and
`trace_id` exactly when a truthy (non-empty) traceId option is given; the
body is the base64 encoding of the message bytes, and an error is raised if
and only if the response status is not 2xx. -/
theorem c5_sendRequest_spec (bridgeUrl : String) (message : List Nat)
    (fromId receiver : String) (o : SendOptions) (status : Nat) :
    (sendRequestRun bridgeUrl message fromId receiver (some o) status).1
        = [sendRequest bridgeUrl message fromId receiver (some o)]
      ∧ (sendRequest bridgeUrl message fromId receiver (some o)).url
          = addPathToUrl bridgeUrl "message"
      ∧ ("client_id", fromId) ∈ (sendRequest bridgeUrl message fromId receiver (some o)).query
      ∧ ("to", receiver) ∈ (sendRequest bridgeUrl message fromId receiver (some o)).query
      ∧ ("ttl", toString (o.ttl.getD 300))
          ∈ (sendRequest bridgeUrl message fromId receiver (some o)).query
      ∧ (∀ tp, ("topic", tp) ∈ (sendRequest bridgeUrl message fromId receiver (some o)).query
          ↔ truthyString o.topic = some tp)
      ∧ (∀ tr, ("trace_id", tr) ∈ (sendRequest bridgeUrl message fromId receiver (some o)).query
          ↔ truthyString o.traceId = some tr)
      ∧ (sendRequest bridgeUrl message fromId receiver (some o)).body = base64Encode message
      ∧ (sendRequestOutcome status = Except.ok () ↔ (200 ≤ status ∧ status ≤ 299)) := by
  refine ⟨rfl, rfl, by simp [sendRequest], by simp [sendRequest],
    by simp [sendRequest, defaultTtl], ?_, ?_, rfl, ?_⟩
  · intro tp
    rcases htp : truthyString o.topic with _ | tp' <;>
      rcases htr : truthyString o.traceId with _ | tr' <;>
        simp [sendRequest, htp, htr, eq_comm]
  · intro tr
    rcases htp : truthyString o.topic with _ | tp' <;>
      rcases htr : truthyString o.traceId with _ | tr' <;>
        simp [sendRequest, htp, htr, eq_comm]
  · unfold sendRequestOutcome
    split
    · simp_all
    · simp_all

/-- Membership in `jsSetListAux`: the elements of the input not yet seen. -/
theorem mem_jsSetListAux {α : Type} [DecidableEq α] (a : α) :
    ∀ (l seen : List α), a ∈ jsSetListAux seen l ↔ a ∈ l ∧ a ∉ seen := by
  intro l
  induction l with
  | nil => intro seen; simp [jsSetListAux]
  | cons x xs ih =>
    intro seen
    by_cases hx : x ∈ seen
    · rw [jsSetListAux, if_pos hx, ih]
      constructor
      · rintro ⟨h1, h2⟩
        exact ⟨List.mem_cons_of_mem _ h1, h2⟩
      · rintro ⟨h1, h2⟩
        rcases List.mem_cons.mp h1 with rfl | h1
        · exact absurd hx h2
        · exact ⟨h1, h2⟩
    · rw [jsSetListAux, if_neg hx]
      by_cases hax : a = x
      · subst hax
        simp [hx]
      · simp only [List.mem_cons, hax, false_or]
        rw [ih]
        simp [List.mem_cons, hax]

/-- `jsSetListAux` has no duplicates. -/
theorem nodup_jsSetListAux {α : Type} [DecidableEq α] :
    ∀ (l seen : List α), (jsSetListAux seen l).Nodup := by
  intro l
  induction l with
  | nil => intro seen; simp [jsSetListAux]
  | cons x xs ih =>
    intro seen
    by_cases hx : x ∈ seen
    · rw [jsSetListAux, if_pos hx]
      exact ih seen
    · rw [jsSetListAux, if_neg hx, List.nodup_cons]
      refine ⟨?_, ih _⟩
      intro hmem
      rw [mem_jsSetListAux] at hmem
      exact hmem.2 (List.mem_cons_self x seen)

/-- Every element of `jsSetList l` is an element of `l` and conversely. -/
theorem mem_jsSetList {α : Type} [DecidableEq α] (a : α) (l : List α) :
    a ∈ jsSetList l ↔ a ∈ l := by
  rw [jsSetList, mem_jsSetListAux]
  simp

/-- `jsSetList` has no duplicates. -/
theorem nodup_jsSetList {α : Type} [DecidableEq α] (l : List α) :
    (jsSetList l).Nodup :=
  nodup_jsSetListAux l []

/-- `jsSetList` preserves the set of elements. -/
theorem toFinset_jsSetList {α : Type} [DecidableEq α] (l : List α) :
    (jsSetList l).toFinset = l.toFinset := by
  ext a
  simp [mem_jsSetList]

/-- `equalsDistinct` decides equality of the element sets. -/
theorem equalsDistinct_iff {α : Type} [DecidableEq α] (A B : List α) :
    equalsDistinct A B = true ↔ A.toFinset = B.toFinset := by
  have hcardA : (jsSetList A).length = A.toFinset.card := by
    rw [← toFinset_jsSetList]
    exact (List.toFinset_card_of_nodup (nodup_jsSetList A)).symm
  have hcardB : (jsSetList B).length = B.toFinset.card := by
    rw [← toFinset_jsSetList]
    exact (List.toFinset_card_of_nodup (nodup_jsSetList B)).symm
  unfold equalsDistinct
  constructor
  · intro h
    by_cases hlen : (jsSetList A).length = (jsSetList B).length
    · rw [if_neg (by simpa using hlen)] at h
      rw [List.all_eq_true] at h
      have hsub : A.toFinset ⊆ B.toFinset := by
        intro a ha
        rw [List.mem_toFinset] at ha
        have := h a (by rw [mem_jsSetList]; exact ha)
        rw [decide_eq_true_eq, mem_jsSetList] at this
        rwa [List.mem_toFinset]
      refine Finset.eq_of_subset_of_card_le hsub ?_
      omega
    · rw [if_pos (by simpa using hlen)] at h
      exact absurd h (by simp)
  · intro h
    have hlen : (jsSetList A).length = (jsSetList B).length := by
      rw [hcardA, hcardB, h]
    rw [if_neg (by simpa using hlen), List.all_eq_true]
    intro a ha
    rw [decide_eq_true_eq, mem_jsSetList]
    rw [mem_jsSetList] at ha
    have : a ∈ B.toFinset := by rw [← h, List.mem_toFinset]; exact ha
    rwa [List.mem_toFinset] at this

/-- C10: `equalsDistinct` returns true iff the two arrays carry the same set
of elements, ignoring order and multiplicity (hence it is reflexive and
symmetric), and `updateClients` called with a client list whose session-id
set equals the current one returns without replacing the stored clients and
without reconnecting. -/
theorem c10_equalsDistinct_updateClients {α : Type} [DecidableEq α]
    (A B : List α) (current incoming : List ClientConnection)
    (hsame : equalsDistinct (current.map (fun c => c.session.sessionId))
        (incoming.map (fun c => c.session.sessionId)) = true) :
    (equalsDistinct A B = true ↔ A.toFinset = B.toFinset)
      ∧ equalsDistinct A A = true
      ∧ equalsDistinct A B = equalsDistinct B A
      ∧ updateClients current incoming = (current, false) := by
  refine ⟨equalsDistinct_iff A B, ?_, ?_, ?_⟩
  · rw [equalsDistinct_iff]
  · have hiff : equalsDistinct A B = true ↔ equalsDistinct B A = true := by
      rw [equalsDistinct_iff, equalsDistinct_iff, eq_comm]
    cases h1 : equalsDistinct A B <;> cases h2 : equalsDistinct B A <;>
      simp_all
  · unfold updateClients
    rw [if_pos hsame]

/-- C10 witness: two one-element client lists with the same session id but a
different remote peer produce no reconnect and keep the stored clients. -/
theorem c10_equalsDistinct_updateClients_witness :
    equalsDistinct
        (List.map (fun c => c.session.sessionId)
          [({ session := { sessionId := "s1" }, clientId := "c1" } : ClientConnection)])
        (List.map (fun c => c.session.sessionId)
          [({ session := { sessionId := "s1" }, clientId := "c9" } : ClientConnection)]) = true
      ∧ ((equalsDistinct ["a", "a", "b"] ["b", "a"] = true
            ↔ (["a", "a", "b"] : List String).toFinset = (["b", "a"] : List String).toFinset)
        ∧ equalsDistinct ["a", "a", "b"] ["a", "a", "b"] = true
        ∧ equalsDistinct ["a", "a", "b"] ["b", "a"] = equalsDistinct ["b", "a"] ["a", "a", "b"]
        ∧ updateClients [{ session := { sessionId := "s1" }, clientId := "c1" }]
            [{ session := { sessionId := "s1" }, clientId := "c9" }]
          = ([{ session := { sessionId := "s1" }, clientId := "c1" }], false)) :=
  ⟨by decide,
    c10_equalsDistinct_updateClients ["a", "a", "b"] ["b", "a"]
      [{ session := { sessionId := "s1" }, clientId := "c1" }]
      [{ session := { sessionId := "s1" }, clientId := "c9" }] (by decide)⟩

/-- C4: with exponential backoff the engine sleeps `delayMs` between failed
attempts and doubles the delay after each failure, never exceeding
`maxDelayMs`: in a run whose attempts all fail, the sleep at position `k`
(before attempt `k + 2` of the 1-based count) equals
`min (delayMs * 2 ^ k) maxDelayMs`, every sleep is at most `maxDelayMs`, and
under the provider's default retry policy (base 1000 ms, cap
`defaultMaxExponentialDelayMS`) the delays stay below the 7000 ms ceiling. -/
theorem c4_exponential_backoff_capped {α : Type} (attempts d m k : Nat)
    (hd : d ≤ m) (hk : k + 1 < attempts) :
    (callForSuccess (fun _ => (none : Option α)) attempts d true (some m)).2[k]?
        = some (min (d * 2 ^ k) m)
      ∧ (∀ x ∈ (callForSuccess (fun _ => (none : Option α)) attempts d true (some m)).2, x ≤ m)
      ∧ min (defaultRetryDelayMs * 2 ^ k) defaultMaxExponentialDelayMS ≤ 7000 := by
  have hs := callForSuccessLoop_sleeps (α := α) m attempts 0 d hd
  unfold callForSuccess
  rw [hs]
  refine ⟨?_, ?_, ?_⟩
  · rw [List.getElem?_map, List.getElem?_range (by omega)]
    rfl
  · intro x hx
    rw [List.mem_map] at hx
    obtain ⟨j, _, rfl⟩ := hx
    exact Nat.min_le_right _ _
  · exact Nat.min_le_right _ _

/-- C4 witness: the provider defaults, 12 attempts, sleep index 3: by then
the doubling 1000, 2000, 4000, 8000 has hit the 7000 ms cap. -/
theorem c4_exponential_backoff_capped_witness :
    1000 ≤ 7000 ∧ 3 + 1 < 12
      ∧ ((callForSuccess (fun _ => (none : Option Nat)) 12 1000 true (some 7000)).2[3]?
            = some (min (1000 * 2 ^ 3) 7000)
        ∧ (∀ x ∈ (callForSuccess (fun _ => (none : Option Nat)) 12 1000 true (some 7000)).2,
            x ≤ 7000)
        ∧ min (defaultRetryDelayMs * 2 ^ 3) defaultMaxExponentialDelayMS ≤ 7000) :=
  ⟨by decide, by decide,
    c4_exponential_backoff_capped 12 1000 7000 3 (by decide) (by decide)⟩

/-- C2 counterexample: a non-heartbeat frame whose body does not parse leaves
the stored `lastEventId` untouched — the claim's "updated on every incoming
non-heartbeat message" fails.  The state stores id "5"; the frame carries id
"7" and the unparseable body "BAD"; after the handler the stored id is still
"5". -/
theorem c2_counterexample_parse_failure :
    ({ data := "BAD", lastEventId := "7" } : MessageEventStr).data ≠ "heartbeat"
      ∧ (gatewayListener testEnv 0 testState
          { data := "BAD", lastEventId := "7" }).1.lastEventId = some "5"
      ∧ (some "5" : Option String) ≠ some "7" := by
  decide

/-- C2 amended: within one generation, `lastEventId` is set to the frame's
event id on every non-heartbeat frame that the handler fully decodes and
delivers, synchronously before the listener callback (the delivered event
carries the same id); a non-heartbeat frame that fails to parse, to match a
client or to decrypt leaves `lastEventId` unchanged; the assignment is
unconditional, so the stored value advances forward as a non-negative
integer whenever the relay delivers non-decreasing ids. -/
theorem c2_lastEventId_update {α : Type} (env : CryptoEnv α) (now : Nat)
    (s : ProviderState) (e : MessageEventStr) (hhb : e.data ≠ "heartbeat") :
    (∀ ev, (gatewayListener env now s e).2 = .delivered ev →
        (gatewayListener env now s e).1.lastEventId = some e.lastEventId
          ∧ ev.lastEventId = e.lastEventId)
      ∧ ((∀ ev, (gatewayListener env now s e).2 ≠ .delivered ev) →
        (gatewayListener env now s e).1.lastEventId = s.lastEventId)
      ∧ (∀ prev x y ev, s.lastEventId = some prev → prev.toNat? = some x →
          e.lastEventId.toNat? = some y → x ≤ y →
          (gatewayListener env now s e).2 = .delivered ev →
          ∃ z, ((gatewayListener env now s e).1.lastEventId.bind String.toNat?) = some z
            ∧ x ≤ z) := by
  rcases hp : env.parseIncoming e.data with _ | m
  · have heq : gatewayListener env now s e
        = (s, .reportedParseError ("Failed to parse message: " ++ e.data)) := by
      simp only [gatewayListener, if_neg hhb, hp]
    rw [heq]
    exact ⟨by simp, fun _ => rfl, by simp⟩
  · rcases hc : getCryptoSession s.clients m.fromId with _ | sc
    · have heq : gatewayListener env now s e
          = (s, .thrown "Client session does not exist") := by
        simp only [gatewayListener, if_neg hhb, hp, hc]
      rw [heq]
      exact ⟨by simp, fun _ => rfl, by simp⟩
    · rcases hdm : env.decryptMessage sc.sessionId m.message with _ | req
      · have heq : gatewayListener env now s e
            = (s, .thrown "decrypt or payload parse failed") := by
          simp only [gatewayListener, if_neg hhb, hp, hc, hdm]
        rw [heq]
        exact ⟨by simp, fun _ => rfl, by simp⟩
      · rcases hls : loadMaybeSource env sc m.request_source with _ | rs
        · have heq : gatewayListener env now s e = (s, .thrown "Decrypt error ") := by
            simp only [gatewayListener, if_neg hhb, hp, hc, hdm, hls]
          rw [heq]
          exact ⟨by simp, fun _ => rfl, by simp⟩
        · have heq : gatewayListener env now s e
              = ({ s with lastEventId := some e.lastEventId },
                  .delivered { lastEventId := e.lastEventId, traceId := m.trace_id
                               payload := req, fromId := m.fromId
                               requestSource := rs, connectSource := m.connect_source }) := by
            simp only [gatewayListener, if_neg hhb, hp, hc, hdm, hls]
          rw [heq]
          refine ⟨?_, ?_, ?_⟩
          · intro ev hev
            simp only [HandlerOutput.delivered.injEq] at hev
            subst hev
            exact ⟨rfl, rfl⟩
          · intro hno
            exact absurd rfl (hno _)
          · intro prev x y ev _ _ hy hxy _
            exact ⟨y, by simpa using hy, hxy⟩

/-- C2 witness: a fully decoded frame with id "7" on the state storing "5":
the handler stores "7". -/
theorem c2_lastEventId_update_witness :
    ({ data := "GOOD", lastEventId := "7" } : MessageEventStr).data ≠ "heartbeat"
      ∧ (gatewayListener testEnv 0 testState
          { data := "GOOD", lastEventId := "7" }).1.lastEventId = some "7" := by
  refine ⟨by decide, ?_⟩
  have h := (c2_lastEventId_update testEnv 0 testState
    { data := "GOOD", lastEventId := "7" } (by decide)).1
  exact (h testDelivered (by decide)).1

/-- C6 counterexample: a non-heartbeat frame that parses to a sender matching
no known client makes the handler throw (the `getCryptoSession` error escapes)
and the error listener is not invoked — the claim's "reports the failure to
the errorListener, does not throw out of the handler" fails for this frame. -/
theorem c6_counterexample_unknown_client :
    handlerThrew (gatewayListener testEnv 0
        { clients := [], lastEventId := some "5", lastHeartbeatAt := 0 }
        { data := "GOOD", lastEventId := "7" }).2 = true
      ∧ errorListenerCalls (gatewayListener testEnv 0
          { clients := [], lastEventId := some "5", lastHeartbeatAt := 0 }
          { data := "GOOD", lastEventId := "7" }).2 = 0
      ∧ listenerCalls (gatewayListener testEnv 0
          { clients := [], lastEventId := some "5", lastHeartbeatAt := 0 }
          { data := "GOOD", lastEventId := "7" }).2 = 0 := by
  decide

/-- C6 amended: only a JSON parse failure of the frame body is reported to
the errorListener (once, without throwing, without invoking the user
listener); a frame whose `from` matches no known client, or whose payload
fails to decrypt, makes the handler throw — the error escapes, the
errorListener and the user listener are not invoked.  In every failure case
the provider state is unchanged and the SSE subscription is not torn down. -/
theorem c6_parse_decrypt_failures {α : Type} (env : CryptoEnv α) (now : Nat)
    (s : ProviderState) (e : MessageEventStr) (hhb : e.data ≠ "heartbeat") :
    (env.parseIncoming e.data = none →
        gatewayListener env now s e
            = (s, .reportedParseError ("Failed to parse message: " ++ e.data))
          ∧ errorListenerCalls (gatewayListener env now s e).2 = 1
          ∧ handlerThrew (gatewayListener env now s e).2 = false
          ∧ listenerCalls (gatewayListener env now s e).2 = 0)
      ∧ (∀ m, env.parseIncoming e.data = some m →
          getCryptoSession s.clients m.fromId = none →
          handlerThrew (gatewayListener env now s e).2 = true
            ∧ errorListenerCalls (gatewayListener env now s e).2 = 0
            ∧ listenerCalls (gatewayListener env now s e).2 = 0
            ∧ (gatewayListener env now s e).1 = s)
      ∧ (∀ m sc, env.parseIncoming e.data = some m →
          getCryptoSession s.clients m.fromId = some sc →
          env.decryptMessage sc.sessionId m.message = none →
          handlerThrew (gatewayListener env now s e).2 = true
            ∧ errorListenerCalls (gatewayListener env now s e).2 = 0
            ∧ listenerCalls (gatewayListener env now s e).2 = 0
            ∧ (gatewayListener env now s e).1 = s)
      ∧ tearsDownSubscription (gatewayListener env now s e).2 = false := by
  refine ⟨?_, ?_, ?_, rfl⟩
  · intro hp
    unfold gatewayListener
    simp [if_neg hhb, hp, errorListenerCalls, handlerThrew, listenerCalls]
  · intro m hp hc
    unfold gatewayListener
    simp [if_neg hhb, hp, hc, errorListenerCalls, handlerThrew, listenerCalls]
  · intro m sc hp hc hdm
    unfold gatewayListener
    simp [if_neg hhb, hp, hc, hdm, errorListenerCalls, handlerThrew, listenerCalls]

/-- C6 witness: the unparseable frame "BAD" is reported to the error listener
once without throwing. -/
theorem c6_parse_decrypt_failures_witness :
    ({ data := "BAD", lastEventId := "7" } : MessageEventStr).data ≠ "heartbeat"
      ∧ testEnv.parseIncoming "BAD" = none
      ∧ errorListenerCalls (gatewayListener testEnv 0 testState
          { data := "BAD", lastEventId := "7" }).2 = 1
      ∧ handlerThrew (gatewayListener testEnv 0 testState
          { data := "BAD", lastEventId := "7" }).2 = false := by
  refine ⟨by decide, by decide, ?_, ?_⟩
  · exact ((c6_parse_decrypt_failures testEnv 0 testState
      { data := "BAD", lastEventId := "7" } (by decide)).1 (by decide)).2.1
  · exact ((c6_parse_decrypt_failures testEnv 0 testState
      { data := "BAD", lastEventId := "7" } (by decide)).1 (by decide)).2.2.1

/-- A duplicate-free list whose elements all equal `c` has at most one
element. -/
theorem length_le_one_of_nodup_of_all_eq {c : Nat} :
    ∀ l : List Nat, l.Nodup → (∀ x ∈ l, x = c) → l.length ≤ 1 := by
  intro l hnd hall
  match l with
  | [] => simp
  | [x] => simp
  | x :: y :: rest =>
    exfalso
    have hx := hall x (by simp)
    have hy := hall y (by simp)
    rw [List.nodup_cons] at hnd
    exact hnd.1 ((hx.trans hy.symm) ▸ List.mem_cons_self y rest)

/-- The initial cell satisfies the invariant. -/
theorem cellInv_init : CellInv initCell := by
  refine ⟨List.nodup_nil, List.nodup_nil, ?_, ?_, ?_, ?_⟩ <;> simp [initCell]

/-- Every atomic block of the cell preserves the invariant. -/
theorem cellStep_inv {s : CellState} {st : CellStep} {s' : CellState}
    {o : Option CreateOutcome} (h : cellStep s st = some (s', o))
    (hinv : CellInv s) : CellInv s' := by
  obtain ⟨hnp, hnpend, hpu, hlive, hcur, hrace⟩ := hinv
  cases st with
  | createStart t =>
    rw [cellStep] at h
    split at h
    · exact absurd h (by simp)
    · rename_i ht
      rw [Option.some.injEq, Prod.mk.injEq] at h
      obtain ⟨hs', _⟩ := h
      subst hs'
      have hnew : ∀ r ∈ s.produced, r ∉ liveInstances s ++ s.disposedL → False := by
        intro r hr hnd'
        rw [List.mem_append] at hnd'
        push_neg at hnd'
        exact hnd'.1 (by
          rw [liveInstances, List.mem_filter]
          exact ⟨hr, by simpa using hnd'.2⟩)
      refine ⟨hnp, ?_, ?_, ?_, hcur, ?_⟩
      · exact List.nodup_cons.mpr ⟨fun hmem => ht (hpu t hmem), hnpend⟩
      · intro t' ht'
        rcases List.mem_cons.mp ht' with rfl | ht'
        · exact List.mem_cons_self _ _
        · exact List.mem_cons_of_mem _ (hpu t' ht')
      · intro r hr hnd'
        exact absurd (hnew r hr hnd') (by simp)
      · rintro ⟨r, hr, hnd'⟩
        exact absurd (hnew r hr hnd') (by simp)
  | factoryResolve t r =>
    rw [cellStep] at h
    split at h
    · rename_i hpre
      obtain ⟨hpend, hfreshp, hfreshd⟩ := hpre
      split at h
      · rename_i hguard
        rw [Option.some.injEq, Prod.mk.injEq] at h
        obtain ⟨hs', _⟩ := h
        subst hs'
        refine ⟨List.nodup_cons.mpr ⟨hfreshp, hnp⟩, hnpend.erase t, ?_, ?_, ?_, ?_⟩
        · intro t' ht'
          exact hpu t' (List.mem_of_mem_erase ht')
        · intro r' hr' hnd'
          simp only [List.mem_cons] at hr' hnd'
          push_neg at hnd'
          rcases hr' with rfl | hr'
          · exact absurd rfl hnd'.1
          · exact hlive r' hr' hnd'.2
        · intro r' hcr'
          exact List.mem_cons_of_mem _ (hcur r' hcr')
        · rintro ⟨r', hr', hnd'⟩ t' ht'
          simp only [List.mem_cons] at hr' hnd'
          push_neg at hnd'
          rcases hr' with rfl | hr'
          · exact absurd rfl hnd'.1
          · exact hrace ⟨r', hr', hnd'.2⟩ t' (List.mem_of_mem_erase ht')
      · rename_i hguard
        rw [Option.some.injEq, Prod.mk.injEq] at h
        obtain ⟨hs', _⟩ := h
        subst hs'
        push_neg at hguard
        have hne : some r ≠ s.currentResource := by
          intro hcr
          exact hfreshp (hcur r hcr.symm)
        have hpromise : s.currentPromise = some t := by
          by_cases hpt : s.currentPromise = some t
          · exact hpt
          · exact absurd (hguard hpt) hne
        have hnolive : ∀ r' ∈ s.produced, r' ∈ s.disposedL := by
          intro r' hr'
          by_contra hnd'
          exact hrace ⟨r', hr', hnd'⟩ t hpend hpromise
        refine ⟨List.nodup_cons.mpr ⟨hfreshp, hnp⟩, hnpend.erase t, ?_, ?_, ?_, ?_⟩
        · intro t' ht'
          exact hpu t' (List.mem_of_mem_erase ht')
        · intro r' hr' hnd'
          simp only [List.mem_cons] at hr'
          rcases hr' with rfl | hr'
          · rfl
          · exact absurd (hnolive r' hr') hnd'
        · intro r' hcr'
          rw [Option.some.injEq] at hcr'
          subst hcr'
          exact List.mem_cons_self _ _
        · rintro - t' ht'
          rw [hpromise]
          intro htt'
          rw [Option.some.injEq] at htt'
          subst htt'
          exact ((hnpend.mem_erase_iff.mp ht').1 rfl)
    · exact absurd h (by simp)
  | dispose =>
    rw [cellStep, Option.some.injEq, Prod.mk.injEq] at h
    obtain ⟨hs', _⟩ := h
    subst hs'
    have hnolive : ∀ r' ∈ s.produced,
        r' ∉ (cellDispose s).disposedL → False := by
      intro r' hr' hnd'
      rcases hc : s.currentResource with _ | c
      · have := hlive r' hr' (by
          intro hmem
          exact hnd' (by simp [cellDispose, hc, hmem]))
        rw [hc] at this
        exact Option.noConfusion this
      · have hin : r' ∉ s.disposedL := by
          intro hmem
          exact hnd' (by simp [cellDispose, hc, hmem])
        have := hlive r' hr' hin
        rw [hc, Option.some.injEq] at this
        subst this
        exact hnd' (by simp [cellDispose, hc])
    refine ⟨hnp, hnpend, hpu, ?_, ?_, ?_⟩
    · intro r' hr' hnd'
      exact absurd (hnolive r' hr' hnd') (by simp)
    · intro r' hcr'
      exact absurd hcr' (by simp [cellDispose])
    · rintro ⟨r', hr', hnd'⟩
      exact absurd (hnolive r' hr' hnd') (by simp)

/-- Running any trace from an invariant state keeps the invariant. -/
theorem runCell_inv :
    ∀ (l : List CellStep) (s s' : CellState),
      CellInv s → runCell s l = some s' → CellInv s' := by
  intro l
  induction l with
  | nil =>
    intro s s' h hr
    rw [runCell, Option.some.injEq] at hr
    subst hr
    exact h
  | cons st rest ih =>
    intro s s' h hr
    rw [runCell] at hr
    rcases hstep : cellStep s st with _ | ⟨s1, o1⟩
    · rw [hstep] at hr
      exact absurd hr (by simp)
    · rw [hstep] at hr
      exact ih s1 s' (cellStep_inv hstep h) hr

/-- Under the invariant, at most one instance is live. -/
theorem liveInstances_length_le_one {s : CellState} (hinv : CellInv s) :
    (liveInstances s).length ≤ 1 := by
  obtain ⟨hnp, -, -, hlive, -, -⟩ := hinv
  rcases hc : s.currentResource with _ | c
  · have hnil : liveInstances s = [] := by
      rw [List.eq_nil_iff_forall_not_mem]
      intro x hx
      rw [liveInstances, List.mem_filter] at hx
      have := hlive x hx.1 (by simpa using hx.2)
      rw [hc] at this
      exact Option.noConfusion this
    simp [hnil]
  · refine length_le_one_of_nodup_of_all_eq (c := c) _ (hnp.filter _) ?_
    intro x hx
    rw [liveInstances, List.mem_filter] at hx
    have := hlive x hx.1 (by simpa using hx.2)
    rw [hc, Option.some.injEq] at this
    exact this.symm

/-- C3: for every sequence of create and dispose calls, at any reachable
instant the cell holds at most one live resource; disposal is idempotent;
and when a create call's factory resolves after another create has superseded
it (the published promise token differs from the call's), the late-arriving
instance is passed to the dispose function and the call fails with the
dedicated "aborted by a new resource creation" outcome instead of installing
the instance as current. -/
theorem c3_resource_cell (trace : List CellStep) (s : CellState)
    (hrun : runCell initCell trace = some s) (t r : Nat) (s2 : CellState)
    (o : Option CreateOutcome) (hsup : s.currentPromise ≠ some t)
    (hstep : cellStep s (.factoryResolve t r) = some (s2, o)) :
    (liveInstances s).length ≤ 1
      ∧ (∀ s0 : CellState, cellDispose (cellDispose s0) = cellDispose s0)
      ∧ o = some (.abortedByNew r)
      ∧ r ∈ s2.disposedL
      ∧ s2.currentResource = s.currentResource
      ∧ s2.currentResource ≠ some r := by
  have hinv := runCell_inv trace initCell s cellInv_init hrun
  obtain ⟨-, -, -, -, hcur, -⟩ := hinv
  refine ⟨liveInstances_length_le_one (runCell_inv trace initCell s cellInv_init hrun),
    ?_, ?_⟩
  · intro s0
    rcases hc : s0.currentResource with _ | c <;> simp [cellDispose, hc]
  · rw [cellStep] at hstep
    split at hstep
    · rename_i hpre
      obtain ⟨hpend, hfreshp, hfreshd⟩ := hpre
      have hne : some r ≠ s.currentResource := by
        intro hcr
        exact hfreshp (hcur r hcr.symm)
      rw [if_pos ⟨hsup, hne⟩] at hstep
      rw [Option.some.injEq, Prod.mk.injEq] at hstep
      obtain ⟨hs2, ho⟩ := hstep
      subst hs2
      refine ⟨ho.symm, List.mem_cons_self _ _, rfl, ?_⟩
      exact fun hcr => hne hcr.symm
    · exact absurd hstep (by simp)

/-- C3 witness: the trace `createStart 0; createStart 1; factoryResolve 1 10`
reaches `cellRaceState` (create 1 won and installed instance 10); the late
resolve of create 0 with instance 20 is superseded: 20 is disposed, the call
fails with the dedicated outcome and instance 10 stays current. -/
theorem c3_resource_cell_witness :
    runCell initCell [CellStep.createStart 0, CellStep.createStart 1,
        CellStep.factoryResolve 1 10] = some cellRaceState
      ∧ cellRaceState.currentPromise ≠ some 0
      ∧ cellStep cellRaceState (.factoryResolve 0 20)
          = some (cellRaceState2, some (.abortedByNew 20))
      ∧ ((liveInstances cellRaceState).length ≤ 1
        ∧ (∀ s0 : CellState, cellDispose (cellDispose s0) = cellDispose s0)
        ∧ (some (CreateOutcome.abortedByNew 20) : Option CreateOutcome)
            = some (.abortedByNew 20)
        ∧ 20 ∈ cellRaceState2.disposedL
        ∧ cellRaceState2.currentResource = cellRaceState.currentResource
        ∧ cellRaceState2.currentResource ≠ some 20) :=
  ⟨by decide, by decide, by decide,
    c3_resource_cell
      [CellStep.createStart 0, CellStep.createStart 1, CellStep.factoryResolve 1 10]
      cellRaceState (by decide) 0 20 cellRaceState2 (some (.abortedByNew 20))
      (by decide) (by decide)⟩

end BridgeSdk
